import Mathlib

/-!
Shallow embedding of the client-side synchronization layer of the
task3frontend single-page application: the message store
(src/stores/messageStore.ts), the task store, the auth store
(src/stores/authStore.ts) and the Remote Client's response interceptor
(src/lib/api.ts).

The stores are zustand stores mutated from a single-threaded event loop;
each store action is embedded as a pure function from the store state (and,
for asynchronous actions, the outcome of the awaited remote call) to the
new store state, paired with the list of observable side effects the action
performs (socket emissions, HTTP requests, invocations of
fetchUnreadCount, local-storage mutations, redirects).
-/

namespace Task3Frontend

/-- Observable side effects performed by store actions and by the
Remote Client interceptor. -/
inductive Event where
  | emit (name : String) (payload : String)
  | apiGet (path : String)
  | apiPost (path : String)
  | fetchUnread
  | removeAuthStorage
  | redirect (path : String)
  deriving Repr, DecidableEq

/-- The fields of a chat message that the store logic inspects
(messageStore.ts, `Message`): `_id`, `sender._id`, `recipient?._id`,
`channel?`.  `recipient` is an object in the source, so its mere presence
is truthy; `channel` is a string, so the empty string is falsy. -/
structure Message where
  id : String
  senderId : String
  recipient : Option String
  channel : Option String
  deriving Repr, DecidableEq

/-- The message-store state fields the embedded actions read or write
(messageStore.ts).  Conversation summaries, the unread-counter cache and
the typing flags are carried by separate models; the unread-counter cache
is only ever overwritten wholesale by `fetchUnreadCount` from a server
response. -/
structure MessageState where
  messages : List Message
  activeChannel : Option String
  activeRecipient : Option String
  isLoading : Bool
  hasMore : Bool
  deriving Repr, DecidableEq

/-- JavaScript truthiness of a nullable string (`null`, `undefined` and
`""` are falsy). -/
def strTruthy : Option String → Bool
  | none => false
  | some s => s != ""

/-- The relevance test of `addMessage` (messageStore.ts lines 203-207):
`(message.channel && message.channel === activeChannel) ||
 (message.recipient && (message.recipient._id === activeRecipient ||
  message.sender._id === activeRecipient))`.
It depends only on the active scope and the message. -/
def inScope (ac ar : Option String) (m : Message) : Bool :=
  (match m.channel with
   | some c => c != "" && ac == some c
   | none => false)
  ||
  (match m.recipient with
   | some r => ar == some r || ar == some m.senderId
   | none => false)

/-- `addMessage` (messageStore.ts lines 199-218): append the pushed
message to the cache only when it is relevant to the current view and its
id is not already present; always invoke `fetchUnreadCount` afterwards. -/
def addMessage (st : MessageState) (m : Message) : MessageState × List Event :=
  let st' :=
    if inScope st.activeChannel st.activeRecipient m then
      if st.messages.any (fun x => x.id == m.id) then st
      else { st with messages := st.messages ++ [m] }
    else st
  (st', [Event.fetchUnread])

/-- Fold a list of pushed messages through `addMessage`, keeping states. -/
def addMessages (st : MessageState) (ms : List Message) : MessageState :=
  ms.foldl (fun s x => (addMessage s x).fst) st

/-- Number of cached messages carrying a given id. -/
def countId (msgs : List Message) (i : String) : Nat :=
  (msgs.filter (fun x => x.id == i)).length

/-- `setActiveChannel` (messageStore.ts lines 176-189) followed by the
synchronous prefix of `fetchChannelMessages` (lines 106-117, up to the
`await`): emit `channel:leave` for the truthy previous channel, set the
new scope, and, for a truthy new channel, clear the visible list, raise
`isLoading` and issue the history request.  The post-await continuation
only installs the fetched messages and emits `channel:join`. -/
def setActiveChannel (st : MessageState) (channel : Option String) :
    MessageState × List Event :=
  let evs : List Event :=
    match st.activeChannel with
    | some c0 => if c0 != "" then [Event.emit "channel:leave" c0] else []
    | none => []
  let st1 := { st with activeChannel := channel, activeRecipient := none }
  match channel with
  | some c =>
    if c != "" then
      ({ st1 with isLoading := true, messages := [] },
        evs ++ [Event.apiGet ("/messages/channel/" ++ c)])
    else (st1, evs)
  | none => (st1, evs)

/-- `setActiveRecipient` (messageStore.ts lines 191-197) followed by the
synchronous prefix of `fetchDirectMessages` (lines 124-127): set the new
scope and, for a truthy recipient, clear the visible list, raise
`isLoading` and issue the history request.  No socket event is emitted. -/
def setActiveRecipient (st : MessageState) (userId : Option String) :
    MessageState × List Event :=
  let st1 := { st with activeRecipient := userId, activeChannel := none }
  match userId with
  | some u =>
    if u != "" then
      ({ st1 with isLoading := true, messages := [] },
        [Event.apiGet ("/messages/dm/" ++ u)])
    else (st1, [])
  | none => (st1, [])

/-- `sendMessage` (messageStore.ts lines 139-151): POST the message; on
success append the server's message to the cache, on failure re-throw the
error.  The response (or failure) of the awaited call is the `r`
argument. -/
def sendMessage (st : MessageState) (r : Except String Message) :
    Except String MessageState × List Event :=
  match r with
  | .ok nm => (.ok { st with messages := st.messages ++ [nm] }, [Event.apiPost "/messages"])
  | .error e => (.error e, [Event.apiPost "/messages"])

/-! ### Typing indicators (messageStore.ts, `setTyping`, lines 229-248)

`setTyping(userId, isTyping)` merges `typingUsers[userId] := isTyping` and,
when `isTyping` is true, schedules `setTimeout(clear userId, 3000)`.  The
scheduled callbacks are modelled as a list of pending timers `(fireAt,
userId)` in the runtime's timer queue; a timer fires at its deadline and
merges `typingUsers[userId] := false`.  Timers already due strictly before
an incoming call fire first (the event loop runs due timers before later
events); the source never cancels a timer. -/

/-- Typing flags plus the runtime's pending `setTimeout` queue. -/
structure TypingSim where
  typingUsers : String → Bool
  timers : List (Nat × String)

/-- Object-spread update of the typing map:
`{...state.typingUsers, [userId]: b}`. -/
def setFlag (f : String → Bool) (u : String) (b : Bool) : String → Bool :=
  fun x => if x == u then b else f x

/-- `setTyping` at wall-clock time `now`: merge the flag and, when typing,
arm a 3000 ms auto-clear timer (never cancelling existing timers). -/
def setTyping (s : TypingSim) (now : Nat) (userId : String) (isTyping : Bool) :
    TypingSim :=
  let s1 : TypingSim := { s with typingUsers := setFlag s.typingUsers userId isTyping }
  if isTyping then { s1 with timers := s1.timers ++ [(now + 3000, userId)] } else s1

/-- Fire every pending timer with deadline `≤ upto`: each one merges
`false` for its user and leaves the queue. -/
def fireDue (s : TypingSim) (upto : Nat) : TypingSim :=
  { typingUsers :=
      (s.timers.filter (fun t => t.fst ≤ upto)).foldl
        (fun f t => setFlag f t.snd false) s.typingUsers,
    timers := s.timers.filter (fun t => upto < t.fst) }

/-- Fire every pending timer strictly before time `t` (the timers that
come due before the next external call). -/
def fireBefore (s : TypingSim) (t : Nat) : TypingSim :=
  { typingUsers :=
      (s.timers.filter (fun x => x.fst < t)).foldl
        (fun f x => setFlag f x.snd false) s.typingUsers,
    timers := s.timers.filter (fun x => t ≤ x.fst) }

/-- Process one external `setTyping` call `(t, u, b)`: run the timers due
before `t`, then the call itself. -/
def stepCall (s : TypingSim) (c : Nat × String × Bool) : TypingSim :=
  setTyping (fireBefore s c.fst) c.fst c.snd.fst c.snd.snd

/-- Run a time-ordered list of `setTyping` calls from the initial store
state (all flags false, no timers). -/
def runTyping (calls : List (Nat × String × Bool)) : TypingSim :=
  calls.foldl stepCall { typingUsers := fun _ => false, timers := [] }

/-- The typing flag of `u` observed just after instant `t`: all timers
with deadline `≤ t` have fired. -/
def typingFlagAt (calls : List (Nat × String × Bool)) (t : Nat) (u : String) :
    Bool :=
  (fireDue (runTyping calls) t).typingUsers u

/-! ### Task store (src/stores/taskStore.ts) -/

/-- The error payload the task store reads off a failed remote call:
`error.response?.data?.error` (absent when there was no structured
body). -/
structure ApiError where
  dataError : Option String
  deriving Repr, DecidableEq

/-- `(error)?.response?.data?.error || defaultMsg`: the JS `||` falls
through on a missing or empty string. -/
def errMsg (e : ApiError) (dflt : String) : String :=
  match e.dataError with
  | some s => if s = "" then dflt else s
  | none => dflt

/-- The task-record fields the cache-patching logic can observe:`_id`
plus representative payload fields. -/
structure Task where
  id : String
  title : String
  status : String
  priority : String
  deriving Repr, DecidableEq

/-- The task-store state fields touched by the mutating actions
(taskStore.ts): the cached list and the currently open record.  The
mutating actions never touch `isLoading`, `error`, `filters` or
`pagination`. -/
structure TaskState where
  tasks : List Task
  currentTask : Option Task
  deriving Repr, DecidableEq

/-- The shared cache patch of `updateTask` / `addComment` /
`updateTaskStatus` (taskStore.ts lines 199-202, 230-233, 245-248):
replace every cached task with the matching id by the server's record,
and the open record too when its id matches. -/
def patchCache (st : TaskState) (taskId : String) (updatedTask : Task) :
    TaskState :=
  { tasks := st.tasks.map (fun t => if t.id == taskId then updatedTask else t),
    currentTask :=
      match st.currentTask with
      | some ct => some (if ct.id == taskId then updatedTask else ct)
      | none => none }

/-- `createTask` (taskStore.ts lines 178-192): POST first; on success
prepend the server's task and return it, on failure throw the normalized
message and leave the state alone. -/
def createTask (st : TaskState) (r : Except ApiError Task) :
    TaskState × Except String Task :=
  match r with
  | .ok newTask => ({ st with tasks := newTask :: st.tasks }, .ok newTask)
  | .error e => (st, .error (errMsg e "Failed to create task"))

/-- `updateTask` (taskStore.ts lines 194-209): PATCH first; on success
patch the cache with the server's record and return it. -/
def updateTask (st : TaskState) (taskId : String) (r : Except ApiError Task) :
    TaskState × Except String Task :=
  match r with
  | .ok updatedTask => (patchCache st taskId updatedTask, .ok updatedTask)
  | .error e => (st, .error (errMsg e "Failed to update task"))

/-- `deleteTask` (taskStore.ts lines 211-223): DELETE first; on success
drop the task from the list and close it if it was open. -/
def deleteTask (st : TaskState) (taskId : String) (r : Except ApiError Unit) :
    TaskState × Except String Unit :=
  match r with
  | .ok _ =>
    ({ tasks := st.tasks.filter (fun t => t.id != taskId),
       currentTask :=
         match st.currentTask with
         | some ct => if ct.id == taskId then none else some ct
         | none => none }, .ok ())
  | .error e => (st, .error (errMsg e "Failed to delete task"))

/-- `addComment` (taskStore.ts lines 225-238): POST the comment first; on
success patch the cache with the task returned by the server. -/
def addComment (st : TaskState) (taskId : String) (r : Except ApiError Task) :
    TaskState × Except String Unit :=
  match r with
  | .ok updatedTask => (patchCache st taskId updatedTask, .ok ())
  | .error e => (st, .error (errMsg e "Failed to add comment"))

/-- `updateTaskStatus` (taskStore.ts lines 240-253): PATCH the status
first; on success patch the cache with the task returned by the server. -/
def updateTaskStatus (st : TaskState) (taskId : String) (r : Except ApiError Task) :
    TaskState × Except String Unit :=
  match r with
  | .ok updatedTask => (patchCache st taskId updatedTask, .ok ())
  | .error e => (st, .error (errMsg e "Failed to update status"))

/-! ### Auth store (src/stores/authStore.ts) -/

/-- The auth-store state fields `logout` touches, plus the axios
Authorization default header it deletes; the user record is opaque to
`logout`. -/
structure AuthState where
  user : Option String
  token : Option String
  isAuthenticated : Bool
  isLoading : Bool
  authHeader : Option String
  deriving Repr, DecidableEq

/-- `logout` (authStore.ts lines 117-132): `try { await POST /auth/logout }
catch { /* ignore */ }`, then delete the Authorization default header and
clear user, token, isAuthenticated and isLoading.  The outcome `r` of the
remote call is discarded either way and nothing is re-thrown, so the
embedding always resolves. -/
def logout (st : AuthState) (r : Except ApiError Unit) :
    Except String AuthState × List Event :=
  match r with
  | .ok _ =>
    (.ok { st with user := none, token := none, isAuthenticated := false,
                   isLoading := false, authHeader := none },
     [Event.apiPost "/auth/logout"])
  | .error _ =>
    (.ok { st with user := none, token := none, isAuthenticated := false,
                   isLoading := false, authHeader := none },
     [Event.apiPost "/auth/logout"])

/-! ### Remote Client response interceptor (src/lib/api.ts lines 81-119) -/

/-- The `data` of a failed HTTP response: either a raw string body (an
HTML error page) or a JSON object with an optional `error` field. -/
inductive ErrData where
  | strData (s : String)
  | objData (error : Option String)
  deriving Repr, DecidableEq

/-- The axios error entering the response interceptor: a response with a
status code, a request that got no response, or a setup failure. -/
inductive RawError where
  | response (status : Nat) (data : ErrData) (statusText : String)
  | request
  | setup (message : String)
  deriving Repr, DecidableEq

/-- The normalized error the interceptor rejects with: `error.response`
is guaranteed to exist with a status and data. -/
structure NormError where
  status : Nat
  data : ErrData
  deriving Repr, DecidableEq

/-- Is the event an outgoing HTTP request?  (Used to state that the
interceptor never re-issues the failed call.) -/
def isApiRequest : Event → Bool
  | .apiGet _ => true
  | .apiPost _ => true
  | _ => false

/-- The response interceptor's rejection path (api.ts lines 83-118): on a
401 response remove the persisted `auth-storage` entry and redirect to
`/login` unless already there; normalize the error (wrap a string body,
synthesize a status-0 response for transport/setup failures); reject with
the normalized error (never re-issuing the request). -/
def responseInterceptor (e : RawError) (pathname : String) :
    NormError × List Event :=
  let evs : List Event :=
    match e with
    | .response 401 _ _ =>
      Event.removeAuthStorage ::
        (if pathname != "/login" then [Event.redirect "/login"] else [])
    | _ => []
  let ne : NormError :=
    match e with
    | .response s d stext =>
      { status := s,
        data :=
          match d with
          | .strData _ => .objData (some ("Server error: " ++ stext))
          | .objData o => .objData o }
    | .request => { status := 0, data := .objData (some "No response from server") }
    | .setup msg => { status := 0, data := .objData (some msg) }
  (ne, evs)

/-! ### Concrete fixtures for witnesses and counterexamples -/

/-- A message-store state with channel "general" open. -/
def chanState : MessageState :=
  { messages := [], activeChannel := some "general", activeRecipient := none,
    isLoading := false, hasMore := false }

/-- A channel message for "general". -/
def msgGeneral : Message :=
  { id := "m1", senderId := "u9", recipient := none, channel := some "general" }

/-- A channel message for "random". -/
def msgRandom : Message :=
  { id := "m2", senderId := "u9", recipient := none, channel := some "random" }

/-- A cached task. -/
def taskA : Task :=
  { id := "t1", title := "Write spec", status := "todo", priority := "high" }

/-- Another cached task. -/
def taskB : Task :=
  { id := "t2", title := "Ship release", status := "in_progress", priority := "low" }

/-- taskA with its status patched to done (the record the server returns
for an update of taskA's status). -/
def taskADone : Task :=
  { taskA with status := "done" }

/-- A task-store state caching taskA and taskB, with taskB open. -/
def taskStateAB : TaskState :=
  { tasks := [taskA, taskB], currentTask := some taskB }

/-! ## Theorems -/

/-- Both branches of `setActiveChannel` end with `activeRecipient = none`. -/
theorem setActiveChannel_fst_recipient (st : MessageState) (c : Option String) :
    (setActiveChannel st c).fst.activeRecipient = none := by
  unfold setActiveChannel
  cases c with
  | none => rfl
  | some cc =>
    dsimp only
    by_cases h : cc != "" <;> simp [h]

/-- Both branches of `setActiveRecipient` end with `activeChannel = none`. -/
theorem setActiveRecipient_fst_channel (st : MessageState) (u : Option String) :
    (setActiveRecipient st u).fst.activeChannel = none := by
  unfold setActiveRecipient
  cases u with
  | none => rfl
  | some uu =>
    dsimp only
    by_cases h : uu != "" <;> simp [h]

/-- C5: after `setActiveChannel` the active recipient is null, after
`setActiveRecipient` the active channel is null, and in particular
calling one setter after the other leaves the other scope field null, so
the active channel and the active direct-conversation partner are never
both non-null after either setter runs. -/
theorem scope_setters_mutually_exclusive (st : MessageState) (c u : Option String) :
    (setActiveChannel st c).fst.activeRecipient = none
    ∧ (setActiveRecipient st u).fst.activeChannel = none
    ∧ (setActiveRecipient (setActiveChannel st c).fst u).fst.activeChannel = none
    ∧ (setActiveChannel (setActiveRecipient st u).fst c).fst.activeRecipient = none :=
  ⟨setActiveChannel_fst_recipient st c,
   setActiveRecipient_fst_channel st u,
   setActiveRecipient_fst_channel _ u,
   setActiveChannel_fst_recipient _ c⟩

/-- C2: a pushed message that does not belong to the currently active
scope leaves the store state (in particular the visible messages list)
unchanged, and `addMessage` still invokes `fetchUnreadCount`; hence a
message is appended only if it belongs to the active scope. -/
theorem addMessage_scope_filter (st : MessageState) (m : Message)
    (h : inScope st.activeChannel st.activeRecipient m = false) :
    (addMessage st m).fst = st ∧ Event.fetchUnread ∈ (addMessage st m).snd := by
  unfold addMessage
  simp [h]

/-- C2 witness: with channel "general" active, a message for channel
"random" is out of scope, is not appended, and still triggers the
unread refresh. -/
theorem addMessage_scope_filter_witness :
    inScope chanState.activeChannel chanState.activeRecipient msgRandom = false
    ∧ ((addMessage chanState msgRandom).fst = chanState
       ∧ Event.fetchUnread ∈ (addMessage chanState msgRandom).snd) :=
  ⟨by decide, addMessage_scope_filter chanState msgRandom (by decide)⟩

/-- C6 counterexample: with channel "general" active,
`setActiveRecipient` emits no `channel:leave` (its only effect besides
the state change is the direct-message history request), refuting the
claim that either setter unsubscribes the previously active channel. -/
theorem setActiveRecipient_no_leave_cex :
    chanState.activeChannel = some "general"
    ∧ (setActiveRecipient chanState (some "u1")).snd
        = [Event.apiGet "/messages/dm/u1"] := by
  exact ⟨rfl, rfl⟩

/-- C6 (amended): when a (truthy) channel is active, `setActiveChannel`
emits `channel:leave` for it, but `setActiveRecipient` never emits a
`channel:leave` — switching to a direct conversation does not unsubscribe
the previously active channel. -/
theorem setActiveChannel_leaves_previous (st : MessageState) (c0 : String)
    (newc u : Option String) (h1 : st.activeChannel = some c0) (h2 : c0 ≠ "") :
    Event.emit "channel:leave" c0 ∈ (setActiveChannel st newc).snd
    ∧ (setActiveRecipient st u).snd.count (Event.emit "channel:leave" c0) = 0 := by
  constructor
  · unfold setActiveChannel
    rw [h1]
    cases newc with
    | none => simp [h2]
    | some cc =>
      dsimp only
      by_cases h : cc != "" <;> simp [h, h2]
  · unfold setActiveRecipient
    rw [List.count_eq_zero]
    cases u with
    | none => simp
    | some uu =>
      dsimp only
      by_cases h : uu != "" <;> simp [h]

/-- C6 (amended) witness at a concrete state: leaving "general" for
channel "random" emits the leave; leaving it for user "u1" does not. -/
theorem setActiveChannel_leaves_previous_witness :
    chanState.activeChannel = some "general" ∧ "general" ≠ ""
    ∧ (Event.emit "channel:leave" "general"
        ∈ (setActiveChannel chanState (some "random")).snd
       ∧ (setActiveRecipient chanState (some "u1")).snd.count
           (Event.emit "channel:leave" "general") = 0) :=
  ⟨rfl, by decide,
   setActiveChannel_leaves_previous chanState "general" (some "random") (some "u1")
     rfl (by decide)⟩

/-- C8 counterexample: a `sendMessage` call that resolves successfully
appends the server's message but performs zero `fetchUnreadCount`
invocations, refuting the claim that the unread counters are refreshed
after every locally-sent message. -/
theorem sendMessage_no_unread_refresh_cex :
    (sendMessage chanState (Except.ok msgGeneral)).fst
      = Except.ok { chanState with messages := [msgGeneral] }
    ∧ (sendMessage chanState (Except.ok msgGeneral)).snd.count Event.fetchUnread = 0 :=
  ⟨rfl, rfl⟩

/-- C8 (amended): every `addMessage` call invokes `fetchUnreadCount`, but
`sendMessage` never does — after a locally-sent message the counters are
refreshed only when the server's broadcast echo arrives through
`addMessage`. -/
theorem unread_refresh_wholesale (st1 st2 : MessageState) (m : Message)
    (r : Except String Message) :
    Event.fetchUnread ∈ (addMessage st1 m).snd
    ∧ (sendMessage st2 r).snd.count Event.fetchUnread = 0 := by
  constructor
  · unfold addMessage
    simp
  · unfold sendMessage
    rw [List.count_eq_zero]
    cases r <;> simp

/-- C10: `logout` clears the user, the token, the authenticated flag and
the Authorization default header, and resolves (never re-throws) whatever
the outcome of the remote POST /auth/logout call was. -/
theorem logout_always_clears (st : AuthState) (r : Except ApiError Unit) :
    ∃ st' : AuthState, (logout st r).fst = Except.ok st'
      ∧ st'.user = none ∧ st'.token = none
      ∧ st'.isAuthenticated = false ∧ st'.authHeader = none := by
  cases r <;> exact ⟨_, rfl, rfl, rfl, rfl, rfl⟩

/-- C7: a Remote Client call whose response carries status 401 removes
the persisted auth-storage entry exactly once, rejects with a normalized
error still carrying status 401 (signalling re-authentication), and the
interceptor performs no further HTTP request (no automatic retry). -/
theorem interceptor_401_clears_once (d : ErrData) (stext pathname : String) :
    ((responseInterceptor (RawError.response 401 d stext) pathname).snd.count
        Event.removeAuthStorage = 1)
    ∧ (responseInterceptor (RawError.response 401 d stext) pathname).fst.status = 401
    ∧ ((responseInterceptor (RawError.response 401 d stext) pathname).snd.filter
        isApiRequest = []) := by
  unfold responseInterceptor
  refine ⟨?_, rfl, ?_⟩ <;> dsimp only <;>
    by_cases h : pathname != "/login" <;> simp [h, isApiRequest]

/-- C3: when the remote call fails, each of the five mutating task-store
operations re-raises the normalized message and returns the cache exactly
as it was (the cache is patched only on the resolved path). -/
theorem taskStore_mutations_fail_frame (st : TaskState) (tid : String) (e : ApiError) :
    createTask st (Except.error e) = (st, Except.error (errMsg e "Failed to create task"))
    ∧ updateTask st tid (Except.error e)
        = (st, Except.error (errMsg e "Failed to update task"))
    ∧ deleteTask st tid (Except.error e)
        = (st, Except.error (errMsg e "Failed to delete task"))
    ∧ addComment st tid (Except.error e)
        = (st, Except.error (errMsg e "Failed to add comment"))
    ∧ updateTaskStatus st tid (Except.error e)
        = (st, Except.error (errMsg e "Failed to update status")) :=
  ⟨rfl, rfl, rfl, rfl, rfl⟩

/-! ### Dedup invariant of addMessage (C1) -/

/-- If the pushed message's id is already cached, `addMessage` leaves the
state unchanged (whether or not the message is in scope). -/
theorem addMessage_fst_of_any (st : MessageState) (x : Message)
    (h : st.messages.any (fun y => y.id == x.id) = true) :
    (addMessage st x).fst = st := by
  unfold addMessage
  by_cases h1 : inScope st.activeChannel st.activeRecipient x <;> simp [h1, h]

/-- An in-scope pushed message whose id is not yet cached is appended. -/
theorem addMessage_fst_of_fresh (st : MessageState) (x : Message)
    (h1 : inScope st.activeChannel st.activeRecipient x = true)
    (h2 : st.messages.any (fun y => y.id == x.id) = false) :
    (addMessage st x).fst = { st with messages := st.messages ++ [x] } := by
  unfold addMessage
  simp [h1, h2]

/-- `addMessage` either leaves the state unchanged or appends a message
whose id was not cached before. -/
theorem addMessage_fst_spec (st : MessageState) (x : Message) :
    (addMessage st x).fst = st
    ∨ ((addMessage st x).fst = { st with messages := st.messages ++ [x] }
        ∧ st.messages.any (fun y => y.id == x.id) = false) := by
  by_cases h1 : inScope st.activeChannel st.activeRecipient x
  · by_cases h2 : st.messages.any (fun y => y.id == x.id)
    · exact Or.inl (addMessage_fst_of_any st x h2)
    · exact Or.inr ⟨addMessage_fst_of_fresh st x h1 (by simpa using h2),
        by simpa using h2⟩
  · left
    unfold addMessage
    simp [h1]

/-- `addMessage` never changes the active scope. -/
theorem addMessage_scope_fields (st : MessageState) (x : Message) :
    (addMessage st x).fst.activeChannel = st.activeChannel
    ∧ (addMessage st x).fst.activeRecipient = st.activeRecipient := by
  rcases addMessage_fst_spec st x with h | ⟨h, _⟩ <;> rw [h] <;> exact ⟨rfl, rfl⟩

/-- A fold of `addMessage` calls never changes the active scope. -/
theorem addMessages_scope_fields (ms : List Message) (st : MessageState) :
    (addMessages st ms).activeChannel = st.activeChannel
    ∧ (addMessages st ms).activeRecipient = st.activeRecipient := by
  induction ms generalizing st with
  | nil => exact ⟨rfl, rfl⟩
  | cons x xs ih =>
    have h := addMessage_scope_fields st x
    have h2 := ih ((addMessage st x).fst)
    exact ⟨h2.1.trans h.1, h2.2.trans h.2⟩

/-- Cached-id counts add over list concatenation. -/
theorem countId_append (l1 l2 : List Message) (i : String) :
    countId (l1 ++ l2) i = countId l1 i + countId l2 i := by
  unfold countId
  rw [List.filter_append, List.length_append]

/-- A singleton list holds one message with its own id. -/
theorem countId_singleton_self (x : Message) : countId [x] x.id = 1 := by
  simp [countId]

/-- When no cached message matches the id, the count is zero. -/
theorem countId_eq_zero_of_not_any (l : List Message) (i : String)
    (h : l.any (fun y => y.id == i) = false) : countId l i = 0 := by
  unfold countId
  rw [List.length_eq_zero, List.filter_eq_nil_iff]
  intro a ha
  simp only [List.any_eq_false] at h
  exact h a ha

/-- When some cached message matches the id, the count is positive. -/
theorem countId_pos_of_any (l : List Message) (i : String)
    (h : l.any (fun y => y.id == i) = true) : 0 < countId l i := by
  rcases List.any_eq_true.mp h with ⟨y, hy, hyi⟩
  unfold countId
  rw [List.length_pos]
  intro hnil
  exact (List.filter_eq_nil_iff.mp hnil y hy) hyi

/-- Converse: a positive count exhibits a matching cached message. -/
theorem any_of_countId_pos (l : List Message) (i : String)
    (h : 0 < countId l i) : l.any (fun y => y.id == i) = true := by
  unfold countId at h
  rw [List.length_pos] at h
  rcases List.exists_mem_of_ne_nil _ h with ⟨y, hy⟩
  have hm := List.mem_filter.mp hy
  exact List.any_eq_true.mpr ⟨y, hm.1, hm.2⟩

/-- One `addMessage` call preserves the at-most-one-copy-per-id
invariant. -/
theorem countId_addMessage_le_one (st : MessageState) (x : Message) (i : String)
    (h : countId st.messages i ≤ 1) :
    countId (addMessage st x).fst.messages i ≤ 1 := by
  rcases addMessage_fst_spec st x with heq | ⟨heq, hany⟩
  · rw [heq]; exact h
  · rw [heq]
    show countId (st.messages ++ [x]) i ≤ 1
    rw [countId_append]
    by_cases hx : x.id = i
    · subst hx
      rw [countId_eq_zero_of_not_any _ _ hany, countId_singleton_self]
    · have h0 : countId [x] i = 0 := by
        simp [countId, hx]
      omega

/-- Any fold of `addMessage` calls preserves the at-most-one-copy-per-id
invariant. -/
theorem countId_addMessages_le_one (ms : List Message) (st : MessageState)
    (i : String) (h : countId st.messages i ≤ 1) :
    countId (addMessages st ms).messages i ≤ 1 := by
  induction ms generalizing st with
  | nil => exact h
  | cons x xs ih => exact ih _ (countId_addMessage_le_one st x i h)

/-- An in-scope `addMessage` lands the cache at exactly one copy of the
message's id, whether it deduplicated or appended. -/
theorem countId_addMessage_self (st : MessageState) (x : Message)
    (hsc : inScope st.activeChannel st.activeRecipient x = true)
    (h : countId st.messages x.id ≤ 1) :
    countId (addMessage st x).fst.messages x.id = 1 := by
  by_cases hany : st.messages.any (fun y => y.id == x.id) = true
  · rw [addMessage_fst_of_any st x hany]
    have hpos := countId_pos_of_any st.messages x.id hany
    omega
  · have hf : st.messages.any (fun y => y.id == x.id) = false := by
      simpa using hany
    rw [addMessage_fst_of_fresh st x hsc hf]
    show countId (st.messages ++ [x]) x.id = 1
    rw [countId_append, countId_eq_zero_of_not_any _ _ hf, countId_singleton_self]

/-- A pushed message whose id is already cached changes nothing. -/
theorem addMessage_fst_of_count_pos (st : MessageState) (x : Message)
    (h : 0 < countId st.messages x.id) : (addMessage st x).fst = st :=
  addMessage_fst_of_any st x (any_of_countId_pos st.messages x.id h)

/-- C1: starting from an empty cache, after any fold of `addMessage`
calls and then two further `addMessage` calls delivering the same message
id in the active scope, the visible list contains exactly one message
with that id — the duplicate delivery is not re-appended. -/
theorem addMessage_dedup (st0 : MessageState) (ms : List Message) (m1 m2 : Message)
    (h0 : st0.messages = []) (hid : m2.id = m1.id)
    (h1 : inScope st0.activeChannel st0.activeRecipient m1 = true)
    (h2 : inScope st0.activeChannel st0.activeRecipient m2 = true) :
    countId (addMessages st0 (ms ++ [m1, m2])).messages m1.id = 1 := by
  have hfold : addMessages st0 (ms ++ [m1, m2])
      = (addMessage (addMessage (addMessages st0 ms) m1).fst m2).fst := by
    unfold addMessages
    rw [List.foldl_append]
    rfl
  rw [hfold]
  have hscope := addMessages_scope_fields ms st0
  have hscope1 : inScope (addMessages st0 ms).activeChannel
      (addMessages st0 ms).activeRecipient m1 = true := by
    rw [hscope.1, hscope.2]; exact h1
  have hle : countId (addMessages st0 ms).messages m1.id ≤ 1 := by
    apply countId_addMessages_le_one
    rw [h0]
    simp [countId]
  have hone := countId_addMessage_self (addMessages st0 ms) m1 hscope1 hle
  have hpos : 0 < countId (addMessage (addMessages st0 ms) m1).fst.messages m2.id := by
    rw [hid, hone]
    omega
  rw [addMessage_fst_of_count_pos _ m2 hpos, hone]

/-- C1 witness: from the fresh "general" view, delivering the same
in-scope message twice leaves exactly one copy. -/
theorem addMessage_dedup_witness :
    chanState.messages = []
    ∧ inScope chanState.activeChannel chanState.activeRecipient msgGeneral = true
    ∧ countId (addMessages chanState ([] ++ [msgGeneral, msgGeneral])).messages
        msgGeneral.id = 1 :=
  ⟨rfl, by decide,
   addMessage_dedup chanState [] msgGeneral msgGeneral rfl rfl (by decide) (by decide)⟩

/-! ### Write-then-cache frame of updateTask (C4) -/

/-- C4: when `updateTask` is called for a cached task and the remote call
resolves with the record patched to status "done", the cache keeps its
length, every position holding a task with a different id is untouched,
every position holding the updated id now holds the server's record
(status "done", all other fields as before), the open record is untouched
when its id differs, and a failed remote call leaves the whole state
unchanged. -/
theorem updateTask_done_frame (st : TaskState) (tid : String) (t0 u : Task)
    (ht : t0 ∈ st.tasks) (hid : t0.id = tid)
    (hu : u = { t0 with status := "done" }) :
    ((updateTask st tid (Except.ok u)).fst.tasks.length = st.tasks.length)
    ∧ (∀ j : Nat, ∀ t1 : Task, st.tasks[j]? = some t1 → t1.id ≠ tid →
        (updateTask st tid (Except.ok u)).fst.tasks[j]? = some t1)
    ∧ (∀ j : Nat, ∀ t1 : Task, st.tasks[j]? = some t1 → t1.id = tid →
        (updateTask st tid (Except.ok u)).fst.tasks[j]? = some u)
    ∧ u.status = "done" ∧ u.title = t0.title ∧ u.priority = t0.priority
    ∧ u.id = t0.id
    ∧ (∀ ct : Task, st.currentTask = some ct → ct.id ≠ tid →
        (updateTask st tid (Except.ok u)).fst.currentTask = some ct)
    ∧ (∀ e : ApiError, (updateTask st tid (Except.error e)).fst = st) := by
  refine ⟨?_, ?_, ?_, by rw [hu], by rw [hu], by rw [hu], by rw [hu], ?_, fun e => rfl⟩
  · show (st.tasks.map fun t => if t.id == tid then u else t).length = st.tasks.length
    rw [List.length_map]
  · intro j t1 hj hne
    show (st.tasks.map fun t => if t.id == tid then u else t)[j]? = some t1
    rw [List.getElem?_map, hj]
    simp [hne]
  · intro j t1 hj heq
    show (st.tasks.map fun t => if t.id == tid then u else t)[j]? = some u
    rw [List.getElem?_map, hj]
    simp [heq]
  · intro ct hct hne
    show (patchCache st tid u).currentTask = some ct
    unfold patchCache
    rw [hct]
    have hb : (ct.id == tid) = false := beq_eq_false_iff_ne.mpr hne
    simp [hb]

/-- C4 witness: patching taskA to done in a two-task cache replaces only
position 0, keeps taskB at position 1 and keeps the open record taskB. -/
theorem updateTask_done_frame_witness :
    taskA ∈ taskStateAB.tasks
    ∧ (updateTask taskStateAB "t1" (Except.ok taskADone)).fst.tasks[1]? = some taskB
    ∧ (updateTask taskStateAB "t1" (Except.ok taskADone)).fst.tasks[0]? = some taskADone
    ∧ (updateTask taskStateAB "t1" (Except.ok taskADone)).fst.currentTask = some taskB :=
  ⟨by decide,
   (updateTask_done_frame taskStateAB "t1" taskA taskADone (by decide) rfl rfl).2.1
     1 taskB (by decide) (by decide),
   (updateTask_done_frame taskStateAB "t1" taskA taskADone (by decide) rfl rfl).2.2.1
     0 taskA (by decide) (by decide),
   (updateTask_done_frame taskStateAB "t1" taskA taskADone (by decide) rfl
     rfl).2.2.2.2.2.2.2.1 taskB rfl (by decide)⟩

/-! ### Typing auto-clear (C9) -/

/-- The merged flag reads back for its own user. -/
theorem setFlag_self (f : String → Bool) (u : String) (b : Bool) :
    setFlag f u b u = b := by
  simp [setFlag]

/-- C9 counterexample: `setTyping("u1", true)` at 0 ms and again at
2000 ms (before the first window expires), observed at 3500 ms — less
than 3 seconds after the most recent call — already shows the flag
cleared: the first timer was never cancelled, so the window did not
restart. -/
theorem setTyping_rearm_cex :
    typingFlagAt [(0, "u1", true), (2000, "u1", true)] 3500 "u1" = false := by
  decide

/-- C9 (amended): `setTyping(u, true)` sets the flag and, with no further
calls, it stays true strictly inside the 3-second window and auto-clears
from its end on; but a second `setTyping(u, true)` before expiry does NOT
restart the window: the first uncancelled timer still fires, so the flag
is true exactly up to 3 seconds after the FIRST call of the run. -/
theorem setTyping_window (u : String) (s t : Nat) (hs1 : 0 < s) (hs2 : s < 3000) :
    typingFlagAt [(0, u, true)] t u = decide (t < 3000)
    ∧ typingFlagAt [(0, u, true), (s, u, true)] t u = decide (t < 3000) := by
  constructor
  · unfold typingFlagAt runTyping stepCall fireBefore setTyping fireDue
    by_cases h : 3000 ≤ t
    · simp [h, setFlag_self, Nat.not_lt.mpr h]
    · simp [h, setFlag_self, Nat.lt_of_not_le h]
  · unfold typingFlagAt runTyping stepCall fireBefore setTyping fireDue
    have hns : ¬ (0 + 3000 < s) := by omega
    by_cases h : 3000 ≤ t
    · by_cases h2 : s + 3000 ≤ t <;>
        simp [h, h2, hns, setFlag_self, Nat.not_lt.mpr h, Nat.le_of_lt hs2]
    · have h2 : ¬ s + 3000 ≤ t := by omega
      simp [h, h2, hns, setFlag_self, Nat.lt_of_not_le h]

/-- C9 (amended) witness: a re-arm at 2000 ms does not move the clearing
instant — at 2500 ms the flag is still true, matching the first window. -/
theorem setTyping_window_witness :
    0 < 2000 ∧ 2000 < 3000
    ∧ (typingFlagAt [(0, "u1", true)] 2500 "u1" = decide (2500 < 3000)
       ∧ typingFlagAt [(0, "u1", true), (2000, "u1", true)] 2500 "u1"
           = decide (2500 < 3000)) :=
  ⟨by decide, by decide, setTyping_window "u1" 2000 2500 (by decide) (by decide)⟩

end Task3Frontend
